import Mathlib

/-!
# HC-SR04 pulse driver and optical encoder driver

A shallow embedding of `app/modules/hcsr04.c` and `app/modules/optical_encoder.c`.

* C `uint32_t` values are natural numbers reduced modulo `2 ^ 32`;
* C `int32_t` values are integers in `[-2 ^ 31, 2 ^ 31)`, obtained from unsigned
  words by the two's complement reading `toInt32`;
* the static variables of each module form a record, and every C function is a
  function from the record (plus the values it reads from the platform) to the
  new record;
* calls into the platform (GPIO configuration, register writes, the task queue,
  the Lua callback) are recorded as data: a trace of platform operations, the
  number of posted tasks, and the list of callback invocations.
-/

namespace Firmware

/-! ## Machine words -/

/-- Number of values of a 32-bit word. -/
def WORD : Nat := 2 ^ 32

/-- Conversion of an unsigned 32-bit word to `int32_t` (two's complement). -/
def toInt32 (n : Nat) : Int :=
  if n % WORD < 2 ^ 31 then ((n % WORD : Nat) : Int) else ((n % WORD : Nat) : Int) - (WORD : Int)

/-- Conversion of a (signed) integer to `uint32_t`: reduction modulo `2 ^ 32`. -/
def toUInt32 (i : Int) : Nat :=
  (i % (WORD : Int)).toNat

/-- Unary minus on a `uint32_t` operand, `-x`. -/
def neg32 (x : Nat) : Nat :=
  (WORD - x % WORD) % WORD

/-- Bitwise complement on a `uint32_t` operand, `~x`. -/
def not32 (x : Nat) : Nat :=
  WORD - 1 - x % WORD

/-- The SDK macro `BIT(nr)`, `1 << nr` on a 32-bit word. -/
def BIT (nr : Nat) : Nat :=
  (1 <<< nr) % WORD

/-- The macro `PULSE_US_TO_MM(x)`, `((x) * 10) / 58`, on a `uint32_t` operand:
the product is reduced modulo `2 ^ 32` before the division. -/
def PULSE_US_TO_MM (x : Nat) : Nat :=
  ((x * 10) % WORD) / 58

/-! ## Platform operations

The platform functions the drivers call are not part of the two modules; each
call is recorded with its arguments. -/

/-- Pin modes passed to `platform_gpio_mode`. -/
inductive PinMode where
  | output
  | input
  | int
  deriving DecidableEq, Repr

/-- Pull settings passed to `platform_gpio_mode`. -/
inductive Pull where
  | float
  | pullup
  deriving DecidableEq, Repr

/-- Interrupt types passed to `platform_gpio_intr_init`. -/
inductive IntrType where
  | disable
  | posedge
  | anyedge
  deriving DecidableEq, Repr

/-- The interrupt hooks of the two modules. -/
inductive Hook where
  | echo_interrupt
  | encoder_interrupt
  deriving DecidableEq, Repr

/-- One call into the platform layer, with its arguments. -/
inductive PlatformOp where
  | gpio_mode (pin : Nat) (mode : PinMode) (pull : Pull)
  | gpio_intr_init (pin : Nat) (type : IntrType)
  | gpio_register_intr_hook (bits : Nat) (hook : Hook)
  | gpio_write (pin : Nat) (level : Nat)
  | delay_us (us : Nat)
  | status_w1tc (bits : Nat)
  deriving DecidableEq, Repr

/-- The type of the third argument of `hcsr04.setup`, as seen by `lua_type`. -/
inductive LuaType where
  | function
  | lightfunction
  | other
  deriving DecidableEq, Repr

/-! ## hcsr04.c -/

/-- The static variables of `hcsr04.c`. -/
structure Hcsr04 where
  time_elapsed : Int
  last_pulse_time : Nat
  task_number : Nat
  task_queued : Nat
  callback_ref : Int
  echo_pin : Nat
  trigger_pin : Nat
  deriving DecidableEq, Repr

/-- The pulse driver together with the part of the environment it acts on:
`pending` counts the posted `callback_task` tasks that have not run yet, `calls`
lists the callback invocations (registry reference and argument) in order, and
`ops` is the trace of platform calls. -/
structure PulseWorld where
  drv : Hcsr04
  pending : Nat
  calls : List (Int × Nat)
  ops : List PlatformOp
  deriving DecidableEq, Repr

/-- The interrupt hook `echo_interrupt`. `gpio_in` is the value returned by
`GPIO_INPUT_GET`, `time_now` the value returned by `system_get_time`, and
`post_ok` the result `task_post_medium` gives if it is called (a successful post
adds one pending task). The result is the returned status word and the new
state. -/
def echo_interrupt (pin_num : Nat → Nat) (ret_gpio_status gpio_in time_now : Nat)
    (post_ok : Bool) (w : PulseWorld) : Nat × PulseWorld :=
  let level := 1 &&& gpio_in
  let w1 : PulseWorld :=
    if w.drv.time_elapsed = 0 ∧ level ≠ 0 then
      { w with drv := { w.drv with time_elapsed := toInt32 (neg32 time_now) } }
    else if w.drv.time_elapsed < 0 ∧ level = 0 then
      let d1 : Hcsr04 :=
        { w.drv with
          last_pulse_time := toUInt32 ((time_now : Int) + w.drv.time_elapsed)
          time_elapsed := 0 }
      if d1.task_queued = 0 then
        if post_ok then
          { w with drv := { d1 with task_queued := 1 }, pending := w.pending + 1 }
        else
          { w with drv := d1 }
      else
        { w with drv := d1 }
    else
      w
  let bit := BIT (pin_num w.drv.echo_pin)
  (ret_gpio_status &&& not32 bit,
    { w1 with ops := w1.ops ++ [PlatformOp.status_w1tc bit] })

/-- The deferred task `callback_task`: calls the registered callback with the
last distance in millimetres and clears the queued flag. -/
def callback_task (w : PulseWorld) : PulseWorld :=
  { w with
    calls := w.calls ++ [(w.drv.callback_ref, PULSE_US_TO_MM w.drv.last_pulse_time)]
    drv := { w.drv with task_queued := 0 } }

/-- Result of a Lua-facing function: `none` on normal return, `some msg` when the
call raised the argument error `msg`. -/
abbrev Raised := Option String

/-- The Lua function `hcsr04.setup`. `arg1`, `arg2` are the integers
`luaL_checkinteger` returns for the first two arguments, `ty3` the type of the
third, `new_ref` the reference `luaL_ref` would return and `task_id` the value of
`task_get_id(callback_task)`. The state returned with an error is the state at
the point where the error was raised. -/
def hcsr04_setup (gpio_exists : Nat → Bool) (pin_num : Nat → Nat)
    (arg1 arg2 : Int) (ty3 : LuaType) (new_ref : Int) (task_id : Nat)
    (w : PulseWorld) : Raised × PulseWorld :=
  let t_pin := toUInt32 arg1
  let e_pin := toUInt32 arg2
  if ¬ gpio_exists t_pin then
    (some "Invalid trigger pin", w)
  else if ¬ (gpio_exists e_pin ∧ e_pin > 0) then
    (some "Invalid echo pin, cannot be used for interrupt", w)
  else
    let r : Raised × PulseWorld :=
      if ty3 = LuaType.function ∨ ty3 = LuaType.lightfunction then
        (none, { w with drv := { w.drv with callback_ref := new_ref } })
      else
        (some "invalid callback type", w)
    match r with
    | (some msg, w1) => (some msg, w1)
    | (none, w1) =>
      let d2 : Hcsr04 := { w1.drv with trigger_pin := t_pin, echo_pin := e_pin }
      let d3 : Hcsr04 := { d2 with task_number := task_id }
      (none,
        { w1 with
          drv := d3
          ops := w1.ops ++
            [PlatformOp.gpio_mode d3.trigger_pin PinMode.output Pull.float,
             PlatformOp.gpio_mode d3.echo_pin PinMode.int Pull.float,
             PlatformOp.gpio_intr_init d3.echo_pin IntrType.anyedge,
             PlatformOp.gpio_register_intr_hook (BIT (pin_num d3.echo_pin))
               Hook.echo_interrupt] })

/-- The Lua function `hcsr04.trigger`. -/
def hcsr04_trigger (w : PulseWorld) : PulseWorld :=
  { w with
    drv := { w.drv with time_elapsed := 0 }
    ops := w.ops ++
      [PlatformOp.gpio_write w.drv.trigger_pin 1,
       PlatformOp.delay_us 20,
       PlatformOp.gpio_write w.drv.trigger_pin 0] }

/-- The Lua function `hcsr04.close`. -/
def hcsr04_close (w : PulseWorld) : PulseWorld :=
  { w with
    ops := w.ops ++
      [PlatformOp.gpio_intr_init w.drv.echo_pin IntrType.disable,
       PlatformOp.gpio_mode w.drv.echo_pin PinMode.input Pull.pullup] }

/-- Modelled from the spec: the deferred task dispatcher is not among the
sources. It runs outside interrupt context and executes one posted task; with
nothing posted it does nothing. -/
def task_dispatch (w : PulseWorld) : PulseWorld :=
  if w.pending = 0 then w else callback_task { w with pending := w.pending - 1 }

/-- What can happen to the pulse driver after setup. -/
inductive PulseEvent where
  | echo (gpio_in time_now : Nat) (post_ok : Bool)
  | trigger
  | task
  deriving DecidableEq, Repr

/-- One event applied to the pulse driver. -/
def pulse_step (pin_num : Nat → Nat) (w : PulseWorld) : PulseEvent → PulseWorld
  | PulseEvent.echo g t ok => (echo_interrupt pin_num 0 g t ok w).2
  | PulseEvent.trigger => hcsr04_trigger w
  | PulseEvent.task => task_dispatch w

/-- A sequence of events applied in order. -/
def pulse_run (pin_num : Nat → Nat) (w : PulseWorld) (evs : List PulseEvent) : PulseWorld :=
  evs.foldl (pulse_step pin_num) w

/-- The state of `hcsr04.c` at start-up: every static variable is zero, nothing
is posted, nothing has been called. -/
def pulse_init : PulseWorld :=
  { drv :=
      { time_elapsed := 0, last_pulse_time := 0, task_number := 0, task_queued := 0,
        callback_ref := 0, echo_pin := 0, trigger_pin := 0 }
    pending := 0
    calls := []
    ops := [] }

/-! ## optical_encoder.c -/

/-- The static variables of `optical_encoder.c`. -/
structure Encoder where
  counter : Int
  node_pin : Nat
  pin_bit : Nat
  deriving DecidableEq, Repr

/-- The encoder driver and its trace of platform calls. -/
structure EncWorld where
  drv : Encoder
  ops : List PlatformOp
  deriving DecidableEq, Repr

/-- The interrupt hook `encoder_interrupt`. `gpio_in` is the value returned by
`GPIO_INPUT_GET`. `counter += level` adds an unsigned word to an `int32_t`: the
sum is formed modulo `2 ^ 32` and converted back. -/
def encoder_interrupt (ret_gpio_status gpio_in : Nat) (w : EncWorld) : Nat × EncWorld :=
  let level := 1 &&& gpio_in
  let d1 : Encoder := { w.drv with counter := toInt32 (toUInt32 w.drv.counter + level) }
  (ret_gpio_status &&& not32 d1.pin_bit,
    { drv := d1, ops := w.ops ++ [PlatformOp.status_w1tc d1.pin_bit] })

/-- The Lua function `opt_enc.setup`. `arg1` is the integer `luaL_checkinteger`
returns. The state returned with an error is the state at the point where the
error was raised. -/
def optical_encoder_setup (gpio_exists : Nat → Bool) (pin_num : Nat → Nat)
    (arg1 : Int) (w : EncWorld) : Raised × EncWorld :=
  let pin := toUInt32 arg1
  if ¬ (gpio_exists pin ∧ pin > 0) then
    (some "Invalid interrupt pin", w)
  else
    let d1 : Encoder := { w.drv with node_pin := pin }
    let d2 : Encoder := { d1 with pin_bit := BIT (pin_num d1.node_pin) }
    (none,
      { drv := d2
        ops := w.ops ++
          [PlatformOp.gpio_mode d2.node_pin PinMode.int Pull.float,
           PlatformOp.gpio_intr_init d2.node_pin IntrType.posedge,
           PlatformOp.gpio_register_intr_hook d2.pin_bit Hook.encoder_interrupt] })

/-- The Lua function `opt_enc.get_counter`: the pushed integer and the state. -/
def optical_encoder_get_counter (w : EncWorld) : Int × EncWorld :=
  (w.drv.counter, w)

/-- The Lua function `opt_enc.reset_counter`. -/
def optical_encoder_reset_counter (w : EncWorld) : EncWorld :=
  { w with drv := { w.drv with counter := 0 } }

/-- The Lua function `opt_enc.close`. -/
def optical_encoder_close (w : EncWorld) : EncWorld :=
  { w with
    ops := w.ops ++
      [PlatformOp.gpio_intr_init w.drv.node_pin IntrType.disable,
       PlatformOp.gpio_mode w.drv.node_pin PinMode.input Pull.pullup] }

/-- A sequence of `encoder_interrupt` dispatches, one per sampled pin value. -/
def encoder_run (w : EncWorld) (samples : List Nat) : EncWorld :=
  samples.foldl (fun v g => (encoder_interrupt 0 g v).2) w

/-- The number of dispatches of a sequence whose sampled level is 1. -/
def high_samples (samples : List Nat) : Nat :=
  samples.countP (fun g => 1 &&& g = 1)

/-- The state of `optical_encoder.c` at start-up. -/
def encoder_init : EncWorld :=
  { drv := { counter := 0, node_pin := 0, pin_bit := 0 }, ops := [] }

/-! ## Facts about machine words -/

theorem level_cases (g : Nat) : 1 &&& g = 0 ∨ 1 &&& g = 1 := by
  rw [Nat.one_and_eq_mod_two]; omega

theorem toInt32_neg32_small (t : Nat) (h1 : 1 ≤ t) (h2 : t ≤ 2 ^ 31) :
    toInt32 (neg32 t) = -(t : Int) := by
  unfold toInt32 neg32 WORD
  have e1 : t % 2 ^ 32 = t := Nat.mod_eq_of_lt (by omega)
  rw [e1]
  have e2 : (2 ^ 32 - t) % 2 ^ 32 = 2 ^ 32 - t := Nat.mod_eq_of_lt (by omega)
  rw [e2, e2]
  split
  · omega
  · push_cast [Nat.cast_sub (show t ≤ 2 ^ 32 by omega)]
    omega

theorem toInt32_neg32_large (t : Nat) (h1 : 2 ^ 31 < t) (h2 : t < 2 ^ 32) :
    toInt32 (neg32 t) = (2 ^ 32 : Int) - (t : Int) := by
  unfold toInt32 neg32 WORD
  have e1 : t % 2 ^ 32 = t := Nat.mod_eq_of_lt (by omega)
  rw [e1]
  have e2 : (2 ^ 32 - t) % 2 ^ 32 = 2 ^ 32 - t := Nat.mod_eq_of_lt (by omega)
  rw [e2, e2]
  split
  · push_cast [Nat.cast_sub (show t ≤ 2 ^ 32 by omega)]
    omega
  · omega

theorem toUInt32_cast (i : Int) : ((toUInt32 i : Nat) : Int) = i % 2 ^ 32 := by
  unfold toUInt32 WORD
  have h : 0 ≤ i % 2 ^ 32 := Int.emod_nonneg _ (by norm_num)
  simpa using Int.toNat_of_nonneg h

theorem toUInt32_sub (t1 t0 : Nat) (h0 : t0 ≤ 2 ^ 32) :
    toUInt32 ((t1 : Int) + -(t0 : Int)) = (t1 + 2 ^ 32 - t0) % 2 ^ 32 := by
  have h := toUInt32_cast ((t1 : Int) + -(t0 : Int))
  omega

theorem toUInt32_toInt32 (n : Nat) : toUInt32 (toInt32 n) = n % 2 ^ 32 := by
  have hlt : n % 2 ^ 32 < 2 ^ 32 := Nat.mod_lt _ (by norm_num)
  have key : ∀ i : Int, i % 2 ^ 32 = ((n % 2 ^ 32 : Nat) : Int) → toUInt32 i = n % 2 ^ 32 := by
    intro i hi
    have h := toUInt32_cast i
    omega
  apply key
  unfold toInt32 WORD
  split <;> omega

theorem toInt32_mod_add (a l : Nat) : toInt32 (a % 2 ^ 32 + l) = toInt32 (a + l) := by
  unfold toInt32 WORD
  rw [Nat.mod_add_mod]

theorem toInt32_of_lt (n : Nat) (h : n < 2 ^ 31) : toInt32 n = (n : Int) := by
  unfold toInt32 WORD
  rw [Nat.mod_eq_of_lt (by omega), if_pos h]

theorem toInt32_two_pow_31 : toInt32 2147483648 = -2147483648 := by
  decide

theorem PULSE_US_TO_MM_exact (d : Nat) (h : d ≤ 429496729) :
    PULSE_US_TO_MM d = d * 10 / 58 := by
  unfold PULSE_US_TO_MM WORD
  rw [Nat.mod_eq_of_lt (by omega)]

theorem testBit_not32 (x i : Nat) :
    (not32 x).testBit i = (decide (i < 32) && !x.testBit i) := by
  have hx : x % 2 ^ 32 < 2 ^ 32 := Nat.mod_lt _ (by norm_num)
  have h := Nat.testBit_two_pow_sub_succ hx i
  have e : not32 x = 2 ^ 32 - (x % 2 ^ 32 + 1) := by
    unfold not32 WORD; omega
  rw [e, h, Nat.testBit_mod_two_pow]
  cases decide (i < 32) <;> simp

theorem testBit_BIT (nr i : Nat) :
    (BIT nr).testBit i = (decide (i < 32) && decide (nr = i)) := by
  unfold BIT WORD
  rw [Nat.testBit_mod_two_pow, Nat.one_shiftLeft, Nat.testBit_two_pow]

theorem testBit_word_high (s i : Nat) (hs : s < 2 ^ 32) (hi : ¬ i < 32) :
    s.testBit i = false := by
  apply Nat.testBit_lt_two_pow
  calc s < 2 ^ 32 := hs
    _ ≤ 2 ^ i := Nat.pow_le_pow_right (by norm_num) (by omega)

/-! ## The three cases of `echo_interrupt` -/

theorem echo_interrupt_arm (pin_num : Nat → Nat) (s g t : Nat) (ok : Bool) (w : PulseWorld)
    (hidle : w.drv.time_elapsed = 0) (hhigh : 1 &&& g = 1) :
    (echo_interrupt pin_num s g t ok w).2 =
      { w with
        drv := { w.drv with time_elapsed := toInt32 (neg32 t) }
        ops := w.ops ++ [PlatformOp.status_w1tc (BIT (pin_num w.drv.echo_pin))] } := by
  simp [echo_interrupt, hidle, hhigh]

theorem echo_interrupt_complete (pin_num : Nat → Nat) (s g t : Nat) (ok : Bool) (w : PulseWorld)
    (harmed : w.drv.time_elapsed < 0) (hlow : 1 &&& g = 0) :
    (echo_interrupt pin_num s g t ok w).2 =
      { drv :=
          { w.drv with
            last_pulse_time := toUInt32 ((t : Int) + w.drv.time_elapsed)
            time_elapsed := 0
            task_queued := if w.drv.task_queued = 0 ∧ ok = true then 1 else w.drv.task_queued }
        pending := if w.drv.task_queued = 0 ∧ ok = true then w.pending + 1 else w.pending
        calls := w.calls
        ops := w.ops ++ [PlatformOp.status_w1tc (BIT (pin_num w.drv.echo_pin))] } := by
  have hne : w.drv.time_elapsed ≠ 0 := by omega
  by_cases hq : w.drv.task_queued = 0 <;> cases ok <;>
    simp [echo_interrupt, harmed, hlow, hne, hq]

theorem echo_interrupt_skip (pin_num : Nat → Nat) (s g t : Nat) (ok : Bool) (w : PulseWorld)
    (h1 : ¬ (w.drv.time_elapsed = 0 ∧ 1 &&& g = 1))
    (h2 : ¬ (w.drv.time_elapsed < 0 ∧ 1 &&& g = 0)) :
    (echo_interrupt pin_num s g t ok w).2 =
      { w with ops := w.ops ++ [PlatformOp.status_w1tc (BIT (pin_num w.drv.echo_pin))] } := by
  rcases level_cases g with hl | hl
  · have h3 : ¬ w.drv.time_elapsed < 0 := fun h => h2 ⟨h, hl⟩
    simp [echo_interrupt, hl, h3]
  · have h3 : ¬ w.drv.time_elapsed = 0 := fun h => h1 ⟨h, hl⟩
    simp [echo_interrupt, hl, h3]

theorem echo_interrupt_fst (pin_num : Nat → Nat) (s g t : Nat) (ok : Bool) (w : PulseWorld) :
    (echo_interrupt pin_num s g t ok w).1 = s &&& not32 (BIT (pin_num w.drv.echo_pin)) := by
  simp [echo_interrupt]

/-! ## Setup of the pulse driver -/

theorem hcsr04_setup_valid (gpio_exists : Nat → Bool) (pin_num : Nat → Nat)
    (arg1 arg2 : Int) (ty3 : LuaType) (new_ref : Int) (task_id : Nat) (w : PulseWorld)
    (ht : gpio_exists (toUInt32 arg1) = true) (he : gpio_exists (toUInt32 arg2) = true)
    (hpos : 0 < toUInt32 arg2)
    (hty : ty3 = LuaType.function ∨ ty3 = LuaType.lightfunction) :
    hcsr04_setup gpio_exists pin_num arg1 arg2 ty3 new_ref task_id w =
      (none,
        { drv :=
            { w.drv with
              callback_ref := new_ref
              trigger_pin := toUInt32 arg1
              echo_pin := toUInt32 arg2
              task_number := task_id }
          pending := w.pending
          calls := w.calls
          ops := w.ops ++
            [PlatformOp.gpio_mode (toUInt32 arg1) PinMode.output Pull.float,
             PlatformOp.gpio_mode (toUInt32 arg2) PinMode.int Pull.float,
             PlatformOp.gpio_intr_init (toUInt32 arg2) IntrType.anyedge,
             PlatformOp.gpio_register_intr_hook (BIT (pin_num (toUInt32 arg2)))
               Hook.echo_interrupt] }) := by
  rcases hty with hty | hty <;> simp [hcsr04_setup, ht, he, hpos, hty]

theorem hcsr04_setup_invalid (gpio_exists : Nat → Bool) (pin_num : Nat → Nat)
    (arg1 arg2 : Int) (ty3 : LuaType) (new_ref : Int) (task_id : Nat) (w : PulseWorld)
    (h : gpio_exists (toUInt32 arg1) = false ∨ gpio_exists (toUInt32 arg2) = false ∨
      toUInt32 arg2 = 0 ∨ ¬ (ty3 = LuaType.function ∨ ty3 = LuaType.lightfunction)) :
    (hcsr04_setup gpio_exists pin_num arg1 arg2 ty3 new_ref task_id w).1 ≠ none ∧
    (hcsr04_setup gpio_exists pin_num arg1 arg2 ty3 new_ref task_id w).2 = w := by
  unfold hcsr04_setup
  by_cases ht : gpio_exists (toUInt32 arg1) = true
  · by_cases he : gpio_exists (toUInt32 arg2) = true ∧ toUInt32 arg2 > 0
    · have hty : ¬ (ty3 = LuaType.function ∨ ty3 = LuaType.lightfunction) := by
        rcases h with h | h | h | h
        · rw [ht] at h; cases h
        · rw [he.1] at h; cases h
        · omega
        · exact h
      simp [ht, he, hty]
    · simp [ht, he]
  · simp [ht]

theorem hcsr04_setup_time_elapsed (gpio_exists : Nat → Bool) (pin_num : Nat → Nat)
    (arg1 arg2 : Int) (ty3 : LuaType) (new_ref : Int) (task_id : Nat) (w : PulseWorld) :
    (hcsr04_setup gpio_exists pin_num arg1 arg2 ty3 new_ref task_id w).2.drv.time_elapsed =
      w.drv.time_elapsed := by
  by_cases h : gpio_exists (toUInt32 arg1) = false ∨ gpio_exists (toUInt32 arg2) = false ∨
      toUInt32 arg2 = 0 ∨ ¬ (ty3 = LuaType.function ∨ ty3 = LuaType.lightfunction)
  · rw [(hcsr04_setup_invalid gpio_exists pin_num arg1 arg2 ty3 new_ref task_id w h).2]
  · have ht : gpio_exists (toUInt32 arg1) = true := by
      cases hb : gpio_exists (toUInt32 arg1)
      · exact absurd (Or.inl hb) h
      · rfl
    have he : gpio_exists (toUInt32 arg2) = true := by
      cases hb : gpio_exists (toUInt32 arg2)
      · exact absurd (Or.inr (Or.inl hb)) h
      · rfl
    have hpos : 0 < toUInt32 arg2 :=
      Nat.pos_of_ne_zero fun hz => h (Or.inr (Or.inr (Or.inl hz)))
    have hty : ty3 = LuaType.function ∨ ty3 = LuaType.lightfunction := by
      by_contra hn
      exact h (Or.inr (Or.inr (Or.inr hn)))
    rw [hcsr04_setup_valid gpio_exists pin_num arg1 arg2 ty3 new_ref task_id w ht he hpos hty]

/-! ## The task queue -/

theorem pulse_step_queue (pin_num : Nat → Nat) (w : PulseWorld) (e : PulseEvent)
    (h : w.pending = w.drv.task_queued ∧ w.pending ≤ 1) :
    (pulse_step pin_num w e).pending = (pulse_step pin_num w e).drv.task_queued ∧
    (pulse_step pin_num w e).pending ≤ 1 := by
  obtain ⟨h1, h2⟩ := h
  cases e with
  | echo g t ok =>
    simp only [pulse_step, echo_interrupt]
    split_ifs <;> simp_all
  | trigger => exact ⟨h1, h2⟩
  | task =>
    simp only [pulse_step, task_dispatch, callback_task]
    split_ifs <;> simp_all

theorem pulse_run_queue (pin_num : Nat → Nat) (evs : List PulseEvent) (w : PulseWorld)
    (h : w.pending = w.drv.task_queued ∧ w.pending ≤ 1) :
    (pulse_run pin_num w evs).pending = (pulse_run pin_num w evs).drv.task_queued ∧
    (pulse_run pin_num w evs).pending ≤ 1 := by
  induction evs generalizing w with
  | nil => exact h
  | cons e rest ih => exact ih (pulse_step pin_num w e) (pulse_step_queue pin_num w e h)

/-! ## The encoder counter -/

theorem encoder_interrupt_counter (s g : Nat) (v : EncWorld) :
    (encoder_interrupt s g v).2.drv.counter = toInt32 (toUInt32 v.drv.counter + (1 &&& g)) := by
  simp [encoder_interrupt]

theorem encoder_interrupt_counter_in_range (s g : Nat) (v : EncWorld)
    (hlo : -2 ^ 31 ≤ v.drv.counter) (hhi : v.drv.counter < 2 ^ 31)
    (h : v.drv.counter < 2 ^ 31 - 1 ∨ 1 &&& g = 0) :
    (encoder_interrupt s g v).2.drv.counter = v.drv.counter + ((1 &&& g : Nat) : Int) := by
  rw [encoder_interrupt_counter]
  have hc := toUInt32_cast v.drv.counter
  have hl := level_cases g
  generalize 1 &&& g = l at *
  unfold toInt32 WORD
  split <;> omega

theorem encoder_run_counter (samples : List Nat) (v : EncWorld) (n : Nat)
    (h : v.drv.counter = toInt32 n) :
    (encoder_run v samples).drv.counter = toInt32 (n + high_samples samples) := by
  induction samples generalizing v n with
  | nil => simpa [encoder_run, high_samples] using h
  | cons g rest ih =>
    have hstep : (encoder_interrupt 0 g v).2.drv.counter = toInt32 (n + (1 &&& g)) := by
      rw [encoder_interrupt_counter, h, toUInt32_toInt32, toInt32_mod_add]
    have hrun : encoder_run v (g :: rest) = encoder_run (encoder_interrupt 0 g v).2 rest := rfl
    have hc : high_samples (g :: rest) = high_samples rest + (1 &&& g) := by
      unfold high_samples
      rw [List.countP_cons]
      rcases level_cases g with hl | hl <;> rw [hl] <;> simp
    rw [hrun, ih _ _ hstep, hc]
    congr 1
    omega

theorem high_samples_replicate_one (n : Nat) : high_samples (List.replicate n 1) = n := by
  induction n with
  | zero => rfl
  | succ k ih =>
    have e : high_samples (List.replicate (k + 1) 1) = high_samples (List.replicate k 1) + 1 := by
      rw [List.replicate_succ]
      simp [high_samples, List.countP_cons]
    rw [e, ih]

theorem encoder_run_replicate_one (n : Nat) :
    (optical_encoder_get_counter (encoder_run encoder_init (List.replicate n 1))).1 =
      toInt32 n := by
  show (encoder_run encoder_init (List.replicate n 1)).drv.counter = toInt32 n
  have h := encoder_run_counter (List.replicate n 1) encoder_init 0 (by decide)
  rw [high_samples_replicate_one, Nat.zero_add] at h
  exact h

/-! ## Pulse driver: end-to-end measurement -/

/-- C1 (as stated, refuted): after a successful setup and a trigger with nothing
queued, a rising edge at `t0 = 1` and a falling edge at `t1 = 429496731` followed
by one run of the task give one callback invocation, but its argument is 0,
while `(t1 - t0) * 10 / 58 = 74051160`. -/
theorem pulse_measurement_wraps :
    (pulse_run (fun p => p)
        (hcsr04_trigger
          (hcsr04_setup (fun p => decide (p < 13)) (fun p => p) 1 2 LuaType.function 7 3
            pulse_init).2)
        [PulseEvent.echo 1 1 true, PulseEvent.echo 0 429496731 true, PulseEvent.task]).calls
      = [(7, 0)] ∧
    (1 : Nat) < 429496731 ∧ 429496731 < 2 ^ 32 ∧ (429496731 - 1) * 10 / 58 = 74051160 := by
  decide

/-- C1 (amended): after a successful setup and a trigger with no task queued, a
rising edge at `t0` and a falling edge at `t1` whose post succeeds, with
`1 ≤ t0 ≤ 2 ^ 31`, `t0 < t1` and `t1 - t0 ≤ 429496729`, leave exactly
one task posted, and one run of the task adds exactly one callback invocation,
on the reference stored by setup, with argument `(t1 - t0) * 10 / 58`. -/
theorem pulse_measurement_in_range (gpio_exists : Nat → Bool) (pin_num : Nat → Nat)
    (arg1 arg2 : Int) (ty3 : LuaType) (new_ref : Int) (task_id : Nat) (w : PulseWorld)
    (g0 t0 : Nat) (ok0 : Bool) (g1 t1 : Nat)
    (ht : gpio_exists (toUInt32 arg1) = true) (he : gpio_exists (toUInt32 arg2) = true)
    (hpos : 0 < toUInt32 arg2)
    (hty : ty3 = LuaType.function ∨ ty3 = LuaType.lightfunction)
    (hq : w.drv.task_queued = 0) (hp : w.pending = 0)
    (hhigh : 1 &&& g0 = 1) (hlow : 1 &&& g1 = 0)
    (h0 : 1 ≤ t0) (h0max : t0 ≤ 2 ^ 31) (hlt : t0 < t1) (hd : t1 - t0 ≤ 429496729) :
    (pulse_run pin_num
        (hcsr04_trigger
          (hcsr04_setup gpio_exists pin_num arg1 arg2 ty3 new_ref task_id w).2)
        [PulseEvent.echo g0 t0 ok0, PulseEvent.echo g1 t1 true]).pending = 1 ∧
    (pulse_run pin_num
        (hcsr04_trigger
          (hcsr04_setup gpio_exists pin_num arg1 arg2 ty3 new_ref task_id w).2)
        [PulseEvent.echo g0 t0 ok0, PulseEvent.echo g1 t1 true]).calls = w.calls ∧
    (pulse_run pin_num
        (hcsr04_trigger
          (hcsr04_setup gpio_exists pin_num arg1 arg2 ty3 new_ref task_id w).2)
        [PulseEvent.echo g0 t0 ok0, PulseEvent.echo g1 t1 true, PulseEvent.task]).calls
      = w.calls ++ [(new_ref, (t1 - t0) * 10 / 58)] ∧
    (pulse_run pin_num
        (hcsr04_trigger
          (hcsr04_setup gpio_exists pin_num arg1 arg2 ty3 new_ref task_id w).2)
        [PulseEvent.echo g0 t0 ok0, PulseEvent.echo g1 t1 true, PulseEvent.task]).pending
      = 0 := by
  have hneg : toInt32 (neg32 t0) < 0 := by
    rw [toInt32_neg32_small t0 h0 h0max]; omega
  have hdur : toUInt32 ((t1 : Int) + toInt32 (neg32 t0)) = t1 - t0 := by
    rw [toInt32_neg32_small t0 h0 h0max, toUInt32_sub t1 t0 (by omega)]
    omega
  rw [hcsr04_setup_valid gpio_exists pin_num arg1 arg2 ty3 new_ref task_id w ht he hpos hty]
  simp [pulse_run, pulse_step, hcsr04_trigger, echo_interrupt_arm, echo_interrupt_complete,
    task_dispatch, callback_task, hhigh, hlow, hneg, hq, hp, hdur, PULSE_US_TO_MM_exact _ hd]

/-- Witness for C1: a pulse from 100 to 680 microseconds gives 100 mm. -/
theorem pulse_measurement_in_range_witness :
    (pulse_run (fun p => p)
        (hcsr04_trigger
          (hcsr04_setup (fun p => decide (p < 13)) (fun p => p) 1 2 LuaType.function 7 3
            pulse_init).2)
        [PulseEvent.echo 1 100 false, PulseEvent.echo 0 680 true, PulseEvent.task]).calls
      = pulse_init.calls ++ [(7, (680 - 100) * 10 / 58)] :=
  (pulse_measurement_in_range (fun p => decide (p < 13)) (fun p => p) 1 2 LuaType.function 7 3
    pulse_init 1 100 false 0 680 (by decide) (by decide) (by decide) (Or.inl rfl) rfl rfl
    rfl rfl (by decide) (by decide) (by decide) (by decide)).2.2.1

/-! ## Pulse driver: conversion to millimetres -/

/-- C2 (as stated, refuted): for the 32-bit duration 429496730 the value
`callback_task` passes to the callback is 0, while the truncated quotient of
`429496730 * 10` by 58 is 74051160. -/
theorem callback_task_conversion_wraps :
    (callback_task
        { pulse_init with drv := { pulse_init.drv with last_pulse_time := 429496730 } }).calls
      = [(0, 0)] ∧
    429496730 < 2 ^ 32 ∧ 429496730 * 10 / 58 = 74051160 := by
  decide

/-- C2 (amended): for every duration `d ≤ 429496729` held in `last_pulse_time`,
`callback_task` calls the registered callback once more, with the truncated
quotient of `d * 10` by 58, and clears `task_queued`; durations 580 and 585 both
give 100. -/
theorem callback_task_conversion (w : PulseWorld) (h : w.drv.last_pulse_time ≤ 429496729) :
    (callback_task w).calls =
      w.calls ++ [(w.drv.callback_ref, w.drv.last_pulse_time * 10 / 58)] ∧
    (callback_task w).drv.task_queued = 0 ∧
    PULSE_US_TO_MM 580 = 100 ∧ PULSE_US_TO_MM 585 = 100 := by
  refine ⟨?_, rfl, by decide, by decide⟩
  simp [callback_task, PULSE_US_TO_MM_exact _ h]

/-- Witness for C2: a recorded duration of 585 microseconds. -/
theorem callback_task_conversion_witness :
    (585 : Nat) ≤ 429496729 ∧
    (callback_task
        { pulse_init with drv := { pulse_init.drv with last_pulse_time := 585 } }).calls
      = [] ++ [(0, 585 * 10 / 58)] :=
  ⟨by decide,
    (callback_task_conversion
      { pulse_init with drv := { pulse_init.drv with last_pulse_time := 585 } }
      (by decide)).1⟩

/-! ## Pulse driver: one outstanding task -/

/-- C3 (failing input): from the start-up state, two complete pulses
(3000000000 to 3000000580, then 3000001000 to 3000001585, every post
succeeding) post no task, and a run of the dispatcher afterwards calls no
callback; the recorded duration stays 0. -/
theorem compression_fails_for_late_timestamps :
    (pulse_run (fun p => p) pulse_init
        [PulseEvent.echo 1 3000000000 true, PulseEvent.echo 0 3000000580 true,
         PulseEvent.echo 1 3000001000 true, PulseEvent.echo 0 3000001585 true]).pending = 0 ∧
    (pulse_run (fun p => p) pulse_init
        [PulseEvent.echo 1 3000000000 true, PulseEvent.echo 0 3000000580 true,
         PulseEvent.echo 1 3000001000 true, PulseEvent.echo 0 3000001585 true,
         PulseEvent.task]).calls = [] ∧
    (pulse_run (fun p => p) pulse_init
        [PulseEvent.echo 1 3000000000 true, PulseEvent.echo 0 3000000580 true,
         PulseEvent.echo 1 3000001000 true, PulseEvent.echo 0 3000001585 true,
         PulseEvent.task]).drv.last_pulse_time = 0 := by
  decide

/-- The compression of C3 on the timestamps the marker can represent: with both
rising edges at times in `[1, 2 ^ 31]`, the four dispatches post exactly one
task and the single run of the task calls the callback once, with the
conversion of the second pulse's duration. -/
theorem compression_in_range (pin_num : Nat → Nat) (w : PulseWorld)
    (g0 t0 : Nat) (ok0 : Bool) (g1 t1 g2 t2 : Nat) (ok2 : Bool) (g3 t3 : Nat) (ok3 : Bool)
    (hidle : w.drv.time_elapsed = 0) (hq : w.drv.task_queued = 0) (hp : w.pending = 0)
    (hh0 : 1 &&& g0 = 1) (hl1 : 1 &&& g1 = 0) (hh2 : 1 &&& g2 = 1) (hl3 : 1 &&& g3 = 0)
    (h0 : 1 ≤ t0) (h0max : t0 ≤ 2 ^ 31) (h2 : 1 ≤ t2) (h2max : t2 ≤ 2 ^ 31) :
    (pulse_run pin_num w
        [PulseEvent.echo g0 t0 ok0, PulseEvent.echo g1 t1 true, PulseEvent.echo g2 t2 ok2,
         PulseEvent.echo g3 t3 ok3]).pending = 1 ∧
    (pulse_run pin_num w
        [PulseEvent.echo g0 t0 ok0, PulseEvent.echo g1 t1 true, PulseEvent.echo g2 t2 ok2,
         PulseEvent.echo g3 t3 ok3, PulseEvent.task]).calls
      = w.calls ++ [(w.drv.callback_ref, PULSE_US_TO_MM ((t3 + 2 ^ 32 - t2) % 2 ^ 32))] := by
  have hneg0 : toInt32 (neg32 t0) < 0 := by
    rw [toInt32_neg32_small t0 h0 h0max]; omega
  have hneg2 : toInt32 (neg32 t2) < 0 := by
    rw [toInt32_neg32_small t2 h2 h2max]; omega
  have hdur : toUInt32 ((t3 : Int) + toInt32 (neg32 t2)) = (t3 + 2 ^ 32 - t2) % 2 ^ 32 := by
    rw [toInt32_neg32_small t2 h2 h2max, toUInt32_sub t3 t2 (by omega)]
  simp [pulse_run, pulse_step, echo_interrupt_arm, echo_interrupt_complete,
    task_dispatch, callback_task, hidle, hh0, hl1, hh2, hl3, hneg0, hneg2, hq, hp, hdur]

/-- C4: in every state reached from a state with a clear `task_queued` flag and
nothing posted (the start-up state in particular), by any sequence of `echo_interrupt`
dispatches (any level, any time, post succeeding or failing), `trigger` calls and
runs of the dispatcher, the number of posted tasks that have not run is at most
1 and equals `task_queued`. -/
theorem at_most_one_outstanding_task (pin_num : Nat → Nat) (evs : List PulseEvent)
    (w : PulseWorld) (hq : w.drv.task_queued = 0) (hp : w.pending = 0) :
    (pulse_run pin_num w evs).pending ≤ 1 ∧
    (pulse_run pin_num w evs).pending = (pulse_run pin_num w evs).drv.task_queued := by
  have h := pulse_run_queue pin_num evs w (by omega)
  exact ⟨h.2, h.1⟩

/-- Witness for C4: two complete pulses, a trigger and one run of the
dispatcher, from the start-up state. -/
theorem at_most_one_outstanding_task_witness :
    pulse_init.drv.task_queued = 0 ∧ pulse_init.pending = 0 ∧
    (pulse_run (fun p => p) pulse_init
        [PulseEvent.echo 1 100 true, PulseEvent.echo 0 680 true, PulseEvent.echo 1 1000 true,
         PulseEvent.echo 0 1585 true, PulseEvent.trigger, PulseEvent.task]).pending ≤ 1 :=
  ⟨rfl, rfl,
    (at_most_one_outstanding_task (fun p => p)
      [PulseEvent.echo 1 100 true, PulseEvent.echo 0 680 true, PulseEvent.echo 1 1000 true,
       PulseEvent.echo 0 1585 true, PulseEvent.trigger, PulseEvent.task]
      pulse_init rfl rfl).1⟩

/-! ## Pulse driver: trigger and setup -/

/-- C5: for every prior state `u`, `hcsr04_trigger` sets the marker to 0 and
leaves the other driver variables, the pending tasks and the callback list
unchanged; hence a falling edge dispatched after a rising edge and a `trigger`
records no duration, posts no task and calls no callback, and with nothing
posted a run of the dispatcher calls no callback either. -/
theorem hcsr04_trigger_discards_pulse (pin_num : Nat → Nat) (s0 g0 t0 : Nat) (ok0 : Bool)
    (s1 g1 t1 : Nat) (ok1 : Bool) (u w : PulseWorld)
    (hidle : w.drv.time_elapsed = 0) (hhigh : 1 &&& g0 = 1) (hlow : 1 &&& g1 = 0) :
    (hcsr04_trigger u).drv = { u.drv with time_elapsed := 0 } ∧
    (hcsr04_trigger u).pending = u.pending ∧
    (hcsr04_trigger u).calls = u.calls ∧
    (hcsr04_trigger (echo_interrupt pin_num s0 g0 t0 ok0 w).2).drv.time_elapsed = 0 ∧
    (hcsr04_trigger (echo_interrupt pin_num s0 g0 t0 ok0 w).2).drv.last_pulse_time =
      (echo_interrupt pin_num s0 g0 t0 ok0 w).2.drv.last_pulse_time ∧
    (hcsr04_trigger (echo_interrupt pin_num s0 g0 t0 ok0 w).2).drv.task_queued =
      (echo_interrupt pin_num s0 g0 t0 ok0 w).2.drv.task_queued ∧
    (echo_interrupt pin_num s1 g1 t1 ok1
        (hcsr04_trigger (echo_interrupt pin_num s0 g0 t0 ok0 w).2)).2.drv = w.drv ∧
    (echo_interrupt pin_num s1 g1 t1 ok1
        (hcsr04_trigger (echo_interrupt pin_num s0 g0 t0 ok0 w).2)).2.pending = w.pending ∧
    (echo_interrupt pin_num s1 g1 t1 ok1
        (hcsr04_trigger (echo_interrupt pin_num s0 g0 t0 ok0 w).2)).2.calls = w.calls ∧
    (w.pending = 0 →
      (task_dispatch (echo_interrupt pin_num s1 g1 t1 ok1
        (hcsr04_trigger (echo_interrupt pin_num s0 g0 t0 ok0 w).2)).2).calls = w.calls) := by
  have hfall : ∀ v : PulseWorld, v.drv.time_elapsed = 0 →
      (echo_interrupt pin_num s1 g1 t1 ok1 v).2 =
        { v with ops := v.ops ++ [PlatformOp.status_w1tc (BIT (pin_num v.drv.echo_pin))] } := by
    intro v hv
    exact echo_interrupt_skip pin_num s1 g1 t1 ok1 v (by simp [hlow]) (by simp [hv])
  have hdrv : { w.drv with time_elapsed := (0 : Int) } = w.drv := by
    rw [← hidle]
  rw [hfall _ rfl, echo_interrupt_arm pin_num s0 g0 t0 ok0 w hidle hhigh]
  refine ⟨rfl, rfl, rfl, rfl, rfl, rfl, ?_, rfl, rfl, ?_⟩
  · simpa [hcsr04_trigger] using hdrv
  · intro hp
    simp [task_dispatch, hcsr04_trigger, hp]

/-- Witness for C5: armed at 100, triggered, falling edge at 680: the driver
variables are those of the start-up state. -/
theorem hcsr04_trigger_discards_pulse_witness :
    pulse_init.drv.time_elapsed = 0 ∧ 1 &&& 1 = 1 ∧ 1 &&& 0 = 0 ∧
    (echo_interrupt (fun p => p) 0 0 680 true
        (hcsr04_trigger (echo_interrupt (fun p => p) 0 1 100 true pulse_init).2)).2.drv
      = pulse_init.drv :=
  ⟨rfl, rfl, rfl,
    (hcsr04_trigger_discards_pulse (fun p => p) 0 1 100 true 0 0 680 true pulse_init pulse_init
      rfl rfl rfl).2.2.2.2.2.2.1⟩

/-- C6 (as stated, refuted): with a pulse in flight (marker `-100`), a
successful `hcsr04_setup` returns with the marker still `-100`. -/
theorem hcsr04_setup_keeps_marker_example :
    (hcsr04_setup (fun p => decide (p < 13)) (fun p => p) 1 2 LuaType.function 7 3
        { pulse_init with drv := { pulse_init.drv with time_elapsed := -100 } }).1 = none ∧
    (hcsr04_setup (fun p => decide (p < 13)) (fun p => p) 1 2 LuaType.function 7 3
        { pulse_init with drv := { pulse_init.drv with time_elapsed := -100 } }).2.drv.time_elapsed
      = -100 := by
  decide

/-- C6 (amended): for every prior state and every valid argument triple,
`hcsr04_setup` returns normally and leaves `time_elapsed`, `last_pulse_time` and
`task_queued` at their prior values; it assigns only `callback_ref`,
`trigger_pin`, `echo_pin` and `task_number`. -/
theorem hcsr04_setup_keeps_marker (gpio_exists : Nat → Bool) (pin_num : Nat → Nat)
    (arg1 arg2 : Int) (ty3 : LuaType) (new_ref : Int) (task_id : Nat) (w : PulseWorld)
    (ht : gpio_exists (toUInt32 arg1) = true) (he : gpio_exists (toUInt32 arg2) = true)
    (hpos : 0 < toUInt32 arg2)
    (hty : ty3 = LuaType.function ∨ ty3 = LuaType.lightfunction) :
    (hcsr04_setup gpio_exists pin_num arg1 arg2 ty3 new_ref task_id w).1 = none ∧
    (hcsr04_setup gpio_exists pin_num arg1 arg2 ty3 new_ref task_id w).2.drv.time_elapsed =
      w.drv.time_elapsed ∧
    (hcsr04_setup gpio_exists pin_num arg1 arg2 ty3 new_ref task_id w).2.drv.last_pulse_time =
      w.drv.last_pulse_time ∧
    (hcsr04_setup gpio_exists pin_num arg1 arg2 ty3 new_ref task_id w).2.drv.task_queued =
      w.drv.task_queued ∧
    (hcsr04_setup gpio_exists pin_num arg1 arg2 ty3 new_ref task_id w).2.drv =
      { w.drv with
        callback_ref := new_ref
        trigger_pin := toUInt32 arg1
        echo_pin := toUInt32 arg2
        task_number := task_id } := by
  rw [hcsr04_setup_valid gpio_exists pin_num arg1 arg2 ty3 new_ref task_id w ht he hpos hty]
  exact ⟨rfl, rfl, rfl, rfl, rfl⟩

/-- Witness for C6: setup on pins 1 and 2 with a pulse in flight. -/
theorem hcsr04_setup_keeps_marker_witness :
    (hcsr04_setup (fun p => decide (p < 13)) (fun p => p) 1 2 LuaType.lightfunction 7 3
        { pulse_init with drv := { pulse_init.drv with time_elapsed := -100 } }).2.drv.time_elapsed
      = -100 :=
  (hcsr04_setup_keeps_marker (fun p => decide (p < 13)) (fun p => p) 1 2 LuaType.lightfunction
    7 3 { pulse_init with drv := { pulse_init.drv with time_elapsed := -100 } }
    (by decide) (by decide) (by decide) (Or.inr rfl)).2.1

/-- C7: `hcsr04_setup` raises exactly when the trigger pin does not exist, or the
echo pin does not exist or is 0, or the third argument is not a function;
`optical_encoder_setup` raises exactly when the pin does not exist or is 0; and
whenever either raises, the state at the raise (driver variables, pending tasks,
callbacks, platform calls) is the state before the call. -/
theorem setup_validation_atomic (gpio_exists : Nat → Bool) (pin_num : Nat → Nat)
    (arg1 arg2 : Int) (ty3 : LuaType) (new_ref : Int) (task_id : Nat) (w : PulseWorld)
    (v : EncWorld) :
    ((hcsr04_setup gpio_exists pin_num arg1 arg2 ty3 new_ref task_id w).1 ≠ none ↔
      (gpio_exists (toUInt32 arg1) = false ∨ gpio_exists (toUInt32 arg2) = false ∨
        toUInt32 arg2 = 0 ∨ ¬ (ty3 = LuaType.function ∨ ty3 = LuaType.lightfunction))) ∧
    ((hcsr04_setup gpio_exists pin_num arg1 arg2 ty3 new_ref task_id w).1 ≠ none →
      (hcsr04_setup gpio_exists pin_num arg1 arg2 ty3 new_ref task_id w).2 = w) ∧
    ((optical_encoder_setup gpio_exists pin_num arg1 v).1 ≠ none ↔
      (gpio_exists (toUInt32 arg1) = false ∨ toUInt32 arg1 = 0)) ∧
    ((optical_encoder_setup gpio_exists pin_num arg1 v).1 ≠ none →
      (optical_encoder_setup gpio_exists pin_num arg1 v).2 = v) := by
  have hpulse : (hcsr04_setup gpio_exists pin_num arg1 arg2 ty3 new_ref task_id w).1 ≠ none →
      (gpio_exists (toUInt32 arg1) = false ∨ gpio_exists (toUInt32 arg2) = false ∨
        toUInt32 arg2 = 0 ∨ ¬ (ty3 = LuaType.function ∨ ty3 = LuaType.lightfunction)) := by
    intro hr
    by_contra hcon
    have ht : gpio_exists (toUInt32 arg1) = true := by
      cases hb : gpio_exists (toUInt32 arg1)
      · exact absurd (Or.inl hb) hcon
      · rfl
    have he : gpio_exists (toUInt32 arg2) = true := by
      cases hb : gpio_exists (toUInt32 arg2)
      · exact absurd (Or.inr (Or.inl hb)) hcon
      · rfl
    have hpos : 0 < toUInt32 arg2 :=
      Nat.pos_of_ne_zero fun hz => hcon (Or.inr (Or.inr (Or.inl hz)))
    have hty : ty3 = LuaType.function ∨ ty3 = LuaType.lightfunction := by
      by_contra hn
      exact hcon (Or.inr (Or.inr (Or.inr hn)))
    rw [hcsr04_setup_valid gpio_exists pin_num arg1 arg2 ty3 new_ref task_id w ht he
      hpos hty] at hr
    exact hr rfl
  have henc : (optical_encoder_setup gpio_exists pin_num arg1 v).1 ≠ none ↔
      (gpio_exists (toUInt32 arg1) = false ∨ toUInt32 arg1 = 0) := by
    unfold optical_encoder_setup
    by_cases hx : gpio_exists (toUInt32 arg1) = true <;>
      by_cases hz : toUInt32 arg1 = 0 <;> simp [hx, hz, Nat.pos_iff_ne_zero]
  refine ⟨⟨hpulse, fun h =>
      (hcsr04_setup_invalid gpio_exists pin_num arg1 arg2 ty3 new_ref task_id w h).1⟩,
    fun hr =>
      (hcsr04_setup_invalid gpio_exists pin_num arg1 arg2 ty3 new_ref task_id w (hpulse hr)).2,
    henc, ?_⟩
  intro hr
  have hbad := henc.mp hr
  unfold optical_encoder_setup
  by_cases hx : gpio_exists (toUInt32 arg1) = true
  · have hz : toUInt32 arg1 = 0 := by
      rcases hbad with hb | hb
      · rw [hx] at hb; cases hb
      · exact hb
    simp [hx, hz]
  · simp [hx]

/-- Witness for C7: setup with echo pin 0 raises and leaves a state with a pulse
in flight as it was. -/
theorem setup_validation_atomic_witness :
    (hcsr04_setup (fun p => decide (p < 13)) (fun p => p) 1 0 LuaType.function 7 3
        { pulse_init with drv := { pulse_init.drv with time_elapsed := -100 } }).2
      = { pulse_init with drv := { pulse_init.drv with time_elapsed := -100 } } :=
  (setup_validation_atomic (fun p => decide (p < 13)) (fun p => p) 1 0 LuaType.function 7 3
    { pulse_init with drv := { pulse_init.drv with time_elapsed := -100 } } encoder_init).2.1
    (by decide)

/-! ## Encoder: counter -/

/-- C8 (as stated, refuted): from a counter of 0, `2 ^ 31` dispatches all sampled
with level 1 leave `get_counter()` at `-2 ^ 31`, not at `2 ^ 31`. -/
theorem encoder_counter_wraps :
    (optical_encoder_get_counter
        (encoder_run encoder_init (List.replicate 2147483648 1))).1 = -2147483648 ∧
    high_samples (List.replicate 2147483648 1) = 2147483648 :=
  ⟨(encoder_run_replicate_one 2147483648).trans toInt32_two_pow_31,
    high_samples_replicate_one 2147483648⟩

/-- C8 (amended): from a counter of 0, after any sequence of dispatches with
fewer than `2 ^ 31` samples of level 1, `get_counter()` returns the number of
dispatches sampled with level 1; a dispatch sampled with level 0 leaves a
counter in the `int32_t` range unchanged. -/
theorem encoder_counts_high_samples (samples : List Nat) (w : EncWorld) (s g : Nat)
    (v : EncWorld) (h0 : w.drv.counter = 0) (hN : high_samples samples < 2 ^ 31)
    (hlow : 1 &&& g = 0) (hlo : -2 ^ 31 ≤ v.drv.counter) (hhi : v.drv.counter < 2 ^ 31) :
    (optical_encoder_get_counter (encoder_run w samples)).1 = (high_samples samples : Int) ∧
    (encoder_interrupt s g v).2.drv.counter = v.drv.counter := by
  constructor
  · have h := encoder_run_counter samples w 0 (by rw [h0]; decide)
    simp only [optical_encoder_get_counter]
    rw [h, Nat.zero_add, toInt32_of_lt _ hN]
  · rw [encoder_interrupt_counter_in_range s g v hlo hhi (Or.inr hlow), hlow]
    simp

/-- Witness for C8: the samples 1, 0, 1, 1, 0 give a count of 3. -/
theorem encoder_counts_high_samples_witness :
    encoder_init.drv.counter = 0 ∧ high_samples [1, 0, 1, 1, 0] < 2 ^ 31 ∧
    (optical_encoder_get_counter (encoder_run encoder_init [1, 0, 1, 1, 0])).1 =
      (high_samples [1, 0, 1, 1, 0] : Int) :=
  ⟨rfl, by decide,
    (encoder_counts_high_samples [1, 0, 1, 1, 0] encoder_init 0 0 encoder_init rfl (by decide)
      rfl (by decide) (by decide)).1⟩

/-- C9 (as stated, refuted): with the counter at `2 ^ 31 - 1`, one dispatch
sampled with level 1 leaves the counter at `-2 ^ 31`, which is smaller. -/
theorem encoder_counter_decreases_at_max :
    (encoder_interrupt 0 1
        { drv := { counter := 2147483647, node_pin := 1, pin_bit := 2 }, ops := [] }).2.drv.counter
      = -2147483648 ∧
    (-2147483648 : Int) < 2147483647 := by
  decide

/-- C9 (amended): for every `int32_t` counter value `c` and sampled level, other
than `c = 2 ^ 31 - 1` with level 1, the counter after one `encoder_interrupt`
dispatch is `c` plus the level, hence at least `c`. -/
theorem encoder_counter_monotone (s g : Nat) (v : EncWorld)
    (hlo : -2 ^ 31 ≤ v.drv.counter) (hhi : v.drv.counter < 2 ^ 31)
    (h : v.drv.counter < 2 ^ 31 - 1 ∨ 1 &&& g = 0) :
    (encoder_interrupt s g v).2.drv.counter = v.drv.counter + ((1 &&& g : Nat) : Int) ∧
    v.drv.counter ≤ (encoder_interrupt s g v).2.drv.counter := by
  have e := encoder_interrupt_counter_in_range s g v hlo hhi h
  refine ⟨e, ?_⟩
  rw [e]
  omega

/-- Witness for C9: counter 41, level 1. -/
theorem encoder_counter_monotone_witness :
    (41 : Int) ≤ (encoder_interrupt 0 1
        { drv := { counter := 41, node_pin := 1, pin_bit := 2 }, ops := [] }).2.drv.counter :=
  (encoder_counter_monotone 0 1
    { drv := { counter := 41, node_pin := 1, pin_bit := 2 }, ops := [] }
    (by decide) (by decide) (Or.inl (by decide))).2

/-- C10: `reset_counter()` sets the counter to 0 and leaves the pin assignment
and the platform trace unchanged, `get_counter()` right afterwards returns 0,
and `get_counter()` always returns the current counter and leaves the whole
encoder state unchanged. -/
theorem encoder_reset_and_read (w : EncWorld) :
    (optical_encoder_reset_counter w).drv.counter = 0 ∧
    (optical_encoder_reset_counter w).drv.node_pin = w.drv.node_pin ∧
    (optical_encoder_reset_counter w).drv.pin_bit = w.drv.pin_bit ∧
    (optical_encoder_reset_counter w).ops = w.ops ∧
    (optical_encoder_get_counter (optical_encoder_reset_counter w)).1 = 0 ∧
    (optical_encoder_get_counter w).1 = w.drv.counter ∧
    (optical_encoder_get_counter w).2 = w :=
  ⟨rfl, rfl, rfl, rfl, rfl, rfl, rfl⟩

/-- C11: `optical_encoder_setup` with an existing, non-zero pin returns normally
and leaves the counter at its prior value; of the driver variables only
`node_pin` and `pin_bit` are assigned. -/
theorem optical_encoder_setup_preserves_counter (gpio_exists : Nat → Bool)
    (pin_num : Nat → Nat) (arg1 : Int) (w : EncWorld)
    (hexists : gpio_exists (toUInt32 arg1) = true) (hpos : 0 < toUInt32 arg1) :
    (optical_encoder_setup gpio_exists pin_num arg1 w).1 = none ∧
    (optical_encoder_setup gpio_exists pin_num arg1 w).2.drv.counter = w.drv.counter ∧
    (optical_encoder_setup gpio_exists pin_num arg1 w).2.drv =
      { w.drv with
        node_pin := toUInt32 arg1
        pin_bit := BIT (pin_num (toUInt32 arg1)) } := by
  simp [optical_encoder_setup, hexists, hpos]

/-- Witness for C11: a set-up on pin 5 with the counter at 42. -/
theorem optical_encoder_setup_preserves_counter_witness :
    (fun p => decide (p < 13)) (toUInt32 5) = true ∧ 0 < toUInt32 5 ∧
    (optical_encoder_setup (fun p => decide (p < 13)) (fun p => p) 5
        { drv := { counter := 42, node_pin := 2, pin_bit := 4 }, ops := [] }).2.drv.counter
      = 42 :=
  ⟨by decide, by decide,
    (optical_encoder_setup_preserves_counter (fun p => decide (p < 13)) (fun p => p) 5
      { drv := { counter := 42, node_pin := 2, pin_bit := 4 }, ops := [] }
      (by decide) (by decide)).2.1⟩

/-! ## Close -/

/-- C12 (as stated, refuted): after `close`, a dispatch of the handler still
changes the driver variables. From the start-up state, `hcsr04_close` followed
by `echo_interrupt` with the pin high at time 5 arms the marker, and
`optical_encoder_close` followed by `encoder_interrupt` with the pin high
increments the counter. -/
theorem close_then_dispatch_mutates :
    (echo_interrupt (fun p => p) 0 1 5 true (hcsr04_close pulse_init)).2.drv.time_elapsed = -5 ∧
    (hcsr04_close pulse_init).drv.time_elapsed = 0 ∧
    (encoder_interrupt 0 1 (optical_encoder_close encoder_init)).2.drv.counter = 1 ∧
    (optical_encoder_close encoder_init).drv.counter = 0 := by
  decide

/-- C12 (amended): `close` leaves every driver variable, the pending tasks and
the callback list unchanged and only issues the two platform calls that disable
the pin interrupt and make the pin a pulled-up input; the handlers contain no
check for a closed driver, so a handler dispatched after `close` acts on the
driver variables exactly as it does without the `close`. -/
theorem close_only_reconfigures_pin (pin_num : Nat → Nat) (s g t : Nat) (ok : Bool)
    (w : PulseWorld) (v : EncWorld) :
    (hcsr04_close w).drv = w.drv ∧
    (hcsr04_close w).pending = w.pending ∧
    (hcsr04_close w).calls = w.calls ∧
    (hcsr04_close w).ops = w.ops ++
      [PlatformOp.gpio_intr_init w.drv.echo_pin IntrType.disable,
       PlatformOp.gpio_mode w.drv.echo_pin PinMode.input Pull.pullup] ∧
    (echo_interrupt pin_num s g t ok (hcsr04_close w)).2.drv =
      (echo_interrupt pin_num s g t ok w).2.drv ∧
    (echo_interrupt pin_num s g t ok (hcsr04_close w)).2.pending =
      (echo_interrupt pin_num s g t ok w).2.pending ∧
    (optical_encoder_close v).drv = v.drv ∧
    (optical_encoder_close v).ops = v.ops ++
      [PlatformOp.gpio_intr_init v.drv.node_pin IntrType.disable,
       PlatformOp.gpio_mode v.drv.node_pin PinMode.input Pull.pullup] ∧
    (encoder_interrupt s g (optical_encoder_close v)).2.drv =
      (encoder_interrupt s g v).2.drv := by
  refine ⟨rfl, rfl, rfl, rfl, ?_, ?_, rfl, rfl, rfl⟩
  · simp only [echo_interrupt, hcsr04_close]
    split_ifs <;> rfl
  · simp only [echo_interrupt, hcsr04_close]
    split_ifs <;> rfl

/-! ## Pulse driver: the marker and the edges -/

/-- C13 (failing input): from the start-up state one dispatch of
`echo_interrupt` with the pin high at time `2 ^ 31 + 1` leaves a strictly
positive marker, `2 ^ 31 - 1`. -/
theorem marker_positive_after_late_rising_edge :
    (pulse_run (fun p => p) pulse_init [PulseEvent.echo 1 2147483649 true]).drv.time_elapsed
      = 2147483647 := by
  decide

/-- C14: with the marker idle, a dispatch of `echo_interrupt` with the pin low
leaves every driver variable unchanged, posts no task and calls no callback. -/
theorem echo_interrupt_falling_while_idle (pin_num : Nat → Nat) (s g t : Nat) (ok : Bool)
    (w : PulseWorld) (hidle : w.drv.time_elapsed = 0) (hlow : 1 &&& g = 0) :
    (echo_interrupt pin_num s g t ok w).2.drv = w.drv ∧
    (echo_interrupt pin_num s g t ok w).2.pending = w.pending ∧
    (echo_interrupt pin_num s g t ok w).2.calls = w.calls := by
  rw [echo_interrupt_skip pin_num s g t ok w (by simp [hlow]) (by simp [hidle])]
  exact ⟨rfl, rfl, rfl⟩

/-- Witness for C14: a falling edge at time 7 in the start-up state. -/
theorem echo_interrupt_falling_while_idle_witness :
    pulse_init.drv.time_elapsed = 0 ∧ 1 &&& 0 = 0 ∧
    (echo_interrupt (fun p => p) 0 0 7 true pulse_init).2.drv = pulse_init.drv :=
  ⟨rfl, rfl,
    (echo_interrupt_falling_while_idle (fun p => p) 0 0 7 true pulse_init rfl rfl).1⟩

/-- C15: with the marker armed (negative), a dispatch of `echo_interrupt` with
the pin high leaves every driver variable unchanged, posts no task and calls no
callback; a falling edge dispatched afterwards gives the same driver variables
and pending tasks as without the extra rising edge, the recorded duration being
the time of the falling edge plus the original marker. -/
theorem echo_interrupt_rising_while_armed (pin_num : Nat → Nat) (s g t : Nat) (ok : Bool)
    (s2 g2 t2 : Nat) (ok2 : Bool) (w : PulseWorld)
    (harmed : w.drv.time_elapsed < 0) (hhigh : 1 &&& g = 1) (hlow : 1 &&& g2 = 0) :
    (echo_interrupt pin_num s g t ok w).2.drv = w.drv ∧
    (echo_interrupt pin_num s g t ok w).2.pending = w.pending ∧
    (echo_interrupt pin_num s g t ok w).2.calls = w.calls ∧
    (echo_interrupt pin_num s2 g2 t2 ok2 (echo_interrupt pin_num s g t ok w).2).2.drv =
      (echo_interrupt pin_num s2 g2 t2 ok2 w).2.drv ∧
    (echo_interrupt pin_num s2 g2 t2 ok2 (echo_interrupt pin_num s g t ok w).2).2.pending =
      (echo_interrupt pin_num s2 g2 t2 ok2 w).2.pending ∧
    (echo_interrupt pin_num s2 g2 t2 ok2
        (echo_interrupt pin_num s g t ok w).2).2.drv.last_pulse_time =
      toUInt32 ((t2 : Int) + w.drv.time_elapsed) := by
  have hskip := echo_interrupt_skip pin_num s g t ok w
    (by intro h; omega) (by simp [hhigh])
  rw [hskip]
  refine ⟨rfl, rfl, rfl, ?_, ?_, ?_⟩
  · simp [echo_interrupt_complete, harmed, hlow]
  · simp [echo_interrupt_complete, harmed, hlow]
  · simp [echo_interrupt_complete, harmed, hlow]

/-- Witness for C15: armed at time 100, a second rising edge at 150, then the
falling edge at 680 records 580. -/
theorem echo_interrupt_rising_while_armed_witness :
    (-100 : Int) < 0 ∧ 1 &&& 1 = 1 ∧ 1 &&& 0 = 0 ∧
    (echo_interrupt (fun p => p) 0 0 680 true
        (echo_interrupt (fun p => p) 0 1 150 true
          { pulse_init with drv := { pulse_init.drv with time_elapsed := -100 } }).2).2.drv.last_pulse_time
      = toUInt32 ((680 : Nat) + (-100 : Int)) :=
  ⟨by decide, rfl, rfl,
    (echo_interrupt_rising_while_armed (fun p => p) 0 1 150 true 0 0 680 true
      { pulse_init with drv := { pulse_init.drv with time_elapsed := -100 } }
      (by decide) rfl rfl).2.2.2.2.2⟩

/-! ## Returned status word -/

/-- C16: for every 32-bit status word `s`, bit `i` of the word `echo_interrupt`
returns is bit `i` of `s` except at the echo pin's bit position, where it is
clear; bit `i` of the word `encoder_interrupt` returns is bit `i` of `s` except
where `pin_bit` has a bit set, where it is clear. Neither depends on the sampled
level, the timestamp, the post result or the measurement state. -/
theorem interrupt_return_status (pin_num : Nat → Nat) (s g t : Nat) (ok : Bool)
    (w : PulseWorld) (v : EncWorld) (hs : s < 2 ^ 32) (i : Nat) :
    (echo_interrupt pin_num s g t ok w).1.testBit i =
      (s.testBit i && !decide (i = pin_num w.drv.echo_pin)) ∧
    (encoder_interrupt s g v).1.testBit i =
      (s.testBit i && !v.drv.pin_bit.testBit i) := by
  constructor
  · rw [echo_interrupt_fst, Nat.testBit_land, testBit_not32, testBit_BIT]
    by_cases hi : i < 32
    · by_cases hp : pin_num w.drv.echo_pin = i
      · simp [hi, hp]
      · have hp2 : ¬ i = pin_num w.drv.echo_pin := fun h => hp h.symm
        simp [hi, hp, hp2]
    · simp [testBit_word_high s i hs hi]
  · have e : (encoder_interrupt s g v).1 = s &&& not32 v.drv.pin_bit := by
      simp [encoder_interrupt]
    rw [e, Nat.testBit_land, testBit_not32]
    by_cases hi : i < 32
    · simp [hi]
    · simp [testBit_word_high s i hs hi]

/-- Witness for C16: status word `0xFF`, echo pin bit 3, `pin_bit = 0x30`, at
bit position 3. -/
theorem interrupt_return_status_witness :
    (255 : Nat) < 2 ^ 32 ∧
    (echo_interrupt (fun _ => 3) 255 1 9 true pulse_init).1.testBit 3 =
      ((255 : Nat).testBit 3 && !decide (3 = (fun _ : Nat => 3) pulse_init.drv.echo_pin)) ∧
    (encoder_interrupt 255 1
        { drv := { counter := 0, node_pin := 1, pin_bit := 48 }, ops := [] }).1.testBit 3 =
      ((255 : Nat).testBit 3 && !(48 : Nat).testBit 3) :=
  ⟨by decide,
    interrupt_return_status (fun _ => 3) 255 1 9 true pulse_init
      { drv := { counter := 0, node_pin := 1, pin_bit := 48 }, ops := [] } (by decide) 3⟩

/-! ## Pulse driver: late timestamps, wraparound, failed post -/

/-- C17: with the marker idle, a rising edge at a time `t` with
`2 ^ 31 < t < 2 ^ 32` stores the strictly positive marker `2 ^ 32 - t`; with a
strictly positive marker every dispatch of `echo_interrupt` leaves the driver
variables, the pending tasks and the callback list unchanged; of the events
that can follow (`echo_interrupt`, `trigger`, the deferred task) exactly
`trigger` brings a positive marker back to 0; and `close` and `setup` (with any
arguments) leave the marker as it is. -/
theorem echo_interrupt_dead_state (pin_num : Nat → Nat) (s g t : Nat) (ok : Bool)
    (w : PulseWorld) (e : PulseEvent) (gpio_exists : Nat → Bool) (arg1 arg2 : Int)
    (ty3 : LuaType) (new_ref : Int) (task_id : Nat) :
    (w.drv.time_elapsed = 0 → 1 &&& g = 1 → 2 ^ 31 < t → t < 2 ^ 32 →
      0 < (echo_interrupt pin_num s g t ok w).2.drv.time_elapsed ∧
      (echo_interrupt pin_num s g t ok w).2.drv.time_elapsed = (2 ^ 32 : Int) - (t : Int)) ∧
    (0 < w.drv.time_elapsed →
      (echo_interrupt pin_num s g t ok w).2.drv = w.drv ∧
      (echo_interrupt pin_num s g t ok w).2.pending = w.pending ∧
      (echo_interrupt pin_num s g t ok w).2.calls = w.calls) ∧
    (0 < w.drv.time_elapsed →
      ((pulse_step pin_num w e).drv.time_elapsed = 0 ↔ e = PulseEvent.trigger)) ∧
    (hcsr04_trigger w).drv.time_elapsed = 0 ∧
    (hcsr04_close w).drv.time_elapsed = w.drv.time_elapsed ∧
    (hcsr04_setup gpio_exists pin_num arg1 arg2 ty3 new_ref task_id w).2.drv.time_elapsed =
      w.drv.time_elapsed := by
  have hdead : 0 < w.drv.time_elapsed → ∀ s g t ok,
      (echo_interrupt pin_num s g t ok w).2 =
        { w with ops := w.ops ++ [PlatformOp.status_w1tc (BIT (pin_num w.drv.echo_pin))] } := by
    intro hpos s g t ok
    exact echo_interrupt_skip pin_num s g t ok w (by intro h; omega) (by intro h; omega)
  refine ⟨?_, ?_, ?_, rfl, rfl,
    hcsr04_setup_time_elapsed gpio_exists pin_num arg1 arg2 ty3 new_ref task_id w⟩
  · intro hidle hhigh h1 h2
    rw [echo_interrupt_arm pin_num s g t ok w hidle hhigh]
    simp only
    rw [toInt32_neg32_large t h1 h2]
    constructor <;> omega
  · intro hpos
    rw [hdead hpos]
    exact ⟨rfl, rfl, rfl⟩
  · intro hpos
    cases e with
    | echo g1 t1 ok1 =>
      simp only [pulse_step, hdead hpos]
      constructor
      · intro h; omega
      · intro h; cases h
    | trigger => simp [pulse_step, hcsr04_trigger]
    | task =>
      have hne : w.drv.time_elapsed ≠ 0 := by omega
      by_cases hp : w.pending = 0 <;>
        simp [pulse_step, task_dispatch, callback_task, hp, hne]

/-- Witness for C17: a rising edge at time `2 ^ 31 + 1` from the start-up state,
and a falling edge dispatched on the resulting dead state. -/
theorem echo_interrupt_dead_state_witness :
    0 < (echo_interrupt (fun p => p) 0 1 2147483649 true pulse_init).2.drv.time_elapsed ∧
    (echo_interrupt (fun p => p) 0 0 2147483700 true
        { pulse_init with drv := { pulse_init.drv with time_elapsed := 2147483647 } }).2.drv
      = { pulse_init.drv with time_elapsed := 2147483647 } :=
  ⟨((echo_interrupt_dead_state (fun p => p) 0 1 2147483649 true pulse_init
      PulseEvent.trigger (fun p => decide (p < 13)) 1 2 LuaType.function 7 3).1
      rfl rfl (by decide) (by decide)).1,
   ((echo_interrupt_dead_state (fun p => p) 0 0 2147483700 true
      { pulse_init with drv := { pulse_init.drv with time_elapsed := 2147483647 } }
      PulseEvent.task (fun p => decide (p < 13)) 1 2 LuaType.function 7 3).2.1
      (by decide)).1⟩

/-- C18: from an idle marker, a rising edge at `t0` with `1 ≤ t0 ≤ 2 ^ 31`
followed by a falling edge at any time `t1` records
`last_pulse_time = (t1 - t0) mod 2 ^ 32` (also when `t1 < t0` after the clock
wrapped) and returns the marker to 0. -/
theorem echo_interrupt_duration_mod_word (pin_num : Nat → Nat) (s0 g0 t0 : Nat) (ok0 : Bool)
    (s1 g1 t1 : Nat) (ok1 : Bool) (w : PulseWorld)
    (hidle : w.drv.time_elapsed = 0) (hhigh : 1 &&& g0 = 1) (hlow : 1 &&& g1 = 0)
    (h0 : 1 ≤ t0) (h0max : t0 ≤ 2 ^ 31) :
    ((echo_interrupt pin_num s1 g1 t1 ok1
        (echo_interrupt pin_num s0 g0 t0 ok0 w).2).2.drv.last_pulse_time : Int) =
      ((t1 : Int) - (t0 : Int)) % 2 ^ 32 ∧
    (echo_interrupt pin_num s1 g1 t1 ok1
        (echo_interrupt pin_num s0 g0 t0 ok0 w).2).2.drv.last_pulse_time =
      (t1 + 2 ^ 32 - t0) % 2 ^ 32 ∧
    (echo_interrupt pin_num s1 g1 t1 ok1
        (echo_interrupt pin_num s0 g0 t0 ok0 w).2).2.drv.time_elapsed = 0 := by
  have hneg : toInt32 (neg32 t0) < 0 := by
    rw [toInt32_neg32_small t0 h0 h0max]; omega
  rw [echo_interrupt_arm pin_num s0 g0 t0 ok0 w hidle hhigh]
  simp only [echo_interrupt_complete, hneg, hlow]
  rw [toInt32_neg32_small t0 h0 h0max]
  refine ⟨?_, toUInt32_sub t1 t0 (by omega), trivial⟩
  rw [toUInt32_cast]
  ring_nf

/-- Witness for C18: a pulse that starts at `2 ^ 31` and ends at 5 after the
clock wrapped lasts `2 ^ 31 + 5` microseconds. -/
theorem echo_interrupt_duration_mod_word_witness :
    pulse_init.drv.time_elapsed = 0 ∧ 1 &&& 1 = 1 ∧ 1 &&& 0 = 0 ∧
    1 ≤ 2147483648 ∧ 2147483648 ≤ 2 ^ 31 ∧
    (echo_interrupt (fun p => p) 0 0 5 true
        (echo_interrupt (fun p => p) 0 1 2147483648 true pulse_init).2).2.drv.last_pulse_time =
      (5 + 2 ^ 32 - 2147483648) % 2 ^ 32 :=
  ⟨rfl, rfl, rfl, by decide, by decide,
    (echo_interrupt_duration_mod_word (fun p => p) 0 1 2147483648 true 0 0 5 true pulse_init
      rfl rfl rfl (by decide) (by decide)).2.1⟩

/-- C19: when a pulse completes with `task_queued = 0` and the post fails, the
duration is recorded and the marker returns to 0 while `task_queued` stays 0 and
nothing is pending; the flag is 1 afterwards exactly when the post succeeded;
and after the failure the next completed pulse posts again (with a successful
post the flag becomes 1 and one more task is pending). -/
theorem echo_interrupt_failed_post (pin_num : Nat → Nat) (s g t : Nat) (ok : Bool)
    (s2 g2 t2 s3 g3 t3 : Nat) (ok2 : Bool) (w : PulseWorld)
    (harmed : w.drv.time_elapsed < 0) (hlow : 1 &&& g = 0) (hq : w.drv.task_queued = 0)
    (hhigh2 : 1 &&& g2 = 1) (ht2 : 1 ≤ t2) (ht2max : t2 ≤ 2 ^ 31) (hlow3 : 1 &&& g3 = 0) :
    (echo_interrupt pin_num s g t false w).2.drv.last_pulse_time =
      toUInt32 ((t : Int) + w.drv.time_elapsed) ∧
    (echo_interrupt pin_num s g t false w).2.drv.time_elapsed = 0 ∧
    (echo_interrupt pin_num s g t false w).2.drv.task_queued = 0 ∧
    (echo_interrupt pin_num s g t false w).2.pending = w.pending ∧
    ((echo_interrupt pin_num s g t ok w).2.drv.task_queued = 1 ↔ ok = true) ∧
    ((echo_interrupt pin_num s g t ok w).2.pending = w.pending + 1 ↔ ok = true) ∧
    (echo_interrupt pin_num s3 g3 t3 true
        (echo_interrupt pin_num s2 g2 t2 ok2
          (echo_interrupt pin_num s g t false w).2).2).2.drv.task_queued = 1 ∧
    (echo_interrupt pin_num s3 g3 t3 true
        (echo_interrupt pin_num s2 g2 t2 ok2
          (echo_interrupt pin_num s g t false w).2).2).2.pending = w.pending + 1 := by
  have hneg : toInt32 (neg32 t2) < 0 := by
    rw [toInt32_neg32_small t2 ht2 ht2max]; omega
  refine ⟨?_, ?_, ?_, ?_, ?_, ?_, ?_, ?_⟩
  · simp [echo_interrupt_complete, harmed, hlow]
  · simp [echo_interrupt_complete, harmed, hlow]
  · simp [echo_interrupt_complete, harmed, hlow, hq]
  · simp [echo_interrupt_complete, harmed, hlow]
  · cases ok <;> simp [echo_interrupt_complete, harmed, hlow, hq]
  · cases ok <;> simp [echo_interrupt_complete, harmed, hlow, hq]
  · simp [echo_interrupt_complete, echo_interrupt_arm, harmed, hlow, hq, hhigh2, hlow3, hneg]
  · simp [echo_interrupt_complete, echo_interrupt_arm, harmed, hlow, hq, hhigh2, hlow3, hneg]

/-- Witness for C19: a pulse armed at 100 completes at 680 with a failing post,
then a pulse from 1000 to 1500 posts successfully. -/
theorem echo_interrupt_failed_post_witness :
    (echo_interrupt (fun p => p) 0 0 680 false
        { pulse_init with drv := { pulse_init.drv with time_elapsed := -100 } }).2.drv.task_queued
      = 0 ∧
    (echo_interrupt (fun p => p) 0 0 1500 true
        (echo_interrupt (fun p => p) 0 1 1000 true
          (echo_interrupt (fun p => p) 0 0 680 false
            { pulse_init with
              drv := { pulse_init.drv with time_elapsed := -100 } }).2).2).2.drv.task_queued
      = 1 :=
  ⟨(echo_interrupt_failed_post (fun p => p) 0 0 680 true 0 1 1000 0 0 1500 true
      { pulse_init with drv := { pulse_init.drv with time_elapsed := -100 } }
      (by decide) rfl rfl rfl (by decide) (by decide) rfl).2.2.1,
   (echo_interrupt_failed_post (fun p => p) 0 0 680 true 0 1 1000 0 0 1500 true
      { pulse_init with drv := { pulse_init.drv with time_elapsed := -100 } }
      (by decide) rfl rfl rfl (by decide) (by decide) rfl).2.2.2.2.2.2.1⟩

/-! ## Range of the conversion -/

/-- C20: for a duration `d ≤ 429496729` the product `d * 10` stays below
`2 ^ 32`, `PULSE_US_TO_MM d` is the floor of the rational `10 * d / 58`, and
`PULSE_US_TO_MM` is non-decreasing below `d`. -/
theorem PULSE_US_TO_MM_overflow_free (d : Nat) (h : d ≤ 429496729) :
    d * 10 < 2 ^ 32 ∧
    PULSE_US_TO_MM d = 10 * d / 58 ∧
    (PULSE_US_TO_MM d : Int) = ⌊((10 : ℚ) * (d : ℚ)) / 58⌋ ∧
    ∀ d1 : Nat, d1 ≤ d → PULSE_US_TO_MM d1 ≤ PULSE_US_TO_MM d := by
  have hexact : PULSE_US_TO_MM d = 10 * d / 58 := by
    rw [PULSE_US_TO_MM_exact d h, Nat.mul_comm]
  refine ⟨by omega, hexact, ?_, ?_⟩
  · rw [hexact]
    have e : ((10 : ℚ) * (d : ℚ)) / 58 = ((10 * d : Nat) : ℚ) / ((58 : Nat) : ℚ) := by
      push_cast; ring
    rw [e, ← Int.natCast_floor_eq_floor (by positivity), Nat.floor_div_eq_div]
  · intro d1 hd1
    rw [PULSE_US_TO_MM_exact d h, PULSE_US_TO_MM_exact d1 (by omega)]
    exact Nat.div_le_div_right (by omega)

/-- Witness for C20: the largest duration of the range, 429496729. -/
theorem PULSE_US_TO_MM_overflow_free_witness :
    429496729 ≤ 429496729 ∧ PULSE_US_TO_MM 429496729 = 10 * 429496729 / 58 :=
  ⟨by decide, (PULSE_US_TO_MM_overflow_free 429496729 (by decide)).2.1⟩

end Firmware
